import Mathlib

/-!
Verification development for the synthetic raster content generator of the
`geomockimages` package (file `geomockimages/imagecreator.py`).

The Python code is shallowly embedded as follows.

* 2D arrays become function grids `Nat → Nat → α` together with explicit
  dimensions `ysize`/`xsize`; all statements about array contents are made at
  in-bounds coordinates.
* Machine floats become rationals `ℚ`; numpy's float-to-integer conversion at
  array assignment (C truncation toward zero) is `ratTrunc`.  The caller's
  integer `data_type` is modelled as mathematical integers with this
  truncating conversion; no claim exercises overflow.
* The external random collaborators are modelled as oracle tapes, one per
  independent random source of the program:
  - `shapes` : the grayscale grid returned by `skimage.draw.random_shapes`
    for a given label seed,
  - `Z`      : the standard-normal stream of `np.random.default_rng(noise_seed)`
    (numpy's `Generator.normal(loc, scale, size)` draws standard normals from
    the seed-determined bit stream, independently of `loc`/`scale`, and
    returns `loc + scale * z`),
  - `urand`  : the global legacy `np.random.rand` uniform stream,
  - `moves`  : the global `random.sample(directions, 1)` stream,
  - `sdraws` : the entropy consumed by the unseeded `np.random.default_rng()`
    created inside `get_change_spot_sizes` (`rng.integers(1, 11)` yields a
    value in `[1, 10]`, encoded as `Fin 10` + 1).
  Seeded sources (`shapes`, `Z`) are functions of their seed, so a fixed seed
  rereads the same tape; unseeded sources are ambient tapes that differ
  between independent runs of the program.
* Python exceptions become `Except String`; the unbounded `while` loop of
  `get_change_spot_indices` is given explicit fuel, with `Option.none`
  standing for a run that has not terminated within the fuel.
-/

/-- A 2D array viewed as a total function from (row, column). -/
abbrev Grid (α : Type) : Type := Nat → Nat → α

/-- Conversion of a Python/numpy float to an integer slot of an integer
array: truncation toward zero (C conversion semantics). -/
def ratTrunc (q : ℚ) : ℤ := if 0 ≤ q then ⌊q⌋ else ⌈q⌉

/-- Semantics of `np.rint`: round to the nearest integer, ties to even. -/
def rint (q : ℚ) : ℤ :=
  let f := ⌊q⌋
  let r := q - (f : ℚ)
  if r < 1/2 then f
  else if 1/2 < r then f + 1
  else if f % 2 = 0 then f else f + 1

/-- The four directions drawn by `random.sample(["u", "d", "r", "l"], 1)`. -/
inductive Dir : Type
  | u | d | l | r
deriving DecidableEq

/-- Displacement of one random-walk step, from `imagecreator.py` lines
323-334: "u" adds `[1, 0]`, "d" adds `[-1, 0]`, "l" adds `[0, -1]`,
"r" adds `[0, 1]` (coordinates are `(row, column)`). -/
def dirDelta : Dir → ℤ × ℤ
  | .u => (1, 0)
  | .d => (-1, 0)
  | .l => (0, -1)
  | .r => (0, 1)

/-- Candidate pixel `newpix = pxls[-1] + delta` of the random walk. -/
def stepPix (p : ℤ × ℤ) (dir : Dir) : ℤ × ℤ :=
  (p.1 + (dirDelta dir).1, p.2 + (dirDelta dir).2)

/-- The literal discard condition of `imagecreator.py` lines 337-342:
`newpix[0] >= ysize or newpix[1] >= xsize or newpix[0] < 0 or newpix[0] < 0`.
The third and fourth disjuncts both test the row (vertical) coordinate; the
column's lower bound is never tested. -/
def discardPix (ys xs : Nat) (p : ℤ × ℤ) : Bool :=
  decide ((ys : ℤ) ≤ p.1) || decide ((xs : ℤ) ≤ p.2) ||
    decide (p.1 < 0) || decide (p.1 < 0)

/-- Loop body of `get_change_spot_sizes` (`imagecreator.py` lines 286-292),
with the fresh unseeded generator's draws `rng.integers(1, 11)` supplied by
the tape `sd` starting at position `k`; `left` is `pixels_left`.  A draw that
would overshoot is replaced by the whole remaining budget, after which the
Python loop variable goes negative and the loop stops. -/
def spotSizesGo (sd : Nat → Fin 10) : Nat → Nat → Nat → List Nat
  | 0, _, _ => []
  | fuel + 1, k, left =>
    if left = 0 then []
    else
      let patch := (sd k).val + 1
      if left < patch then [left]
      else patch :: spotSizesGo sd fuel (k + 1) (left - patch)

/-- Embedding of `GeoMockImage.get_change_spot_sizes` (lines 275-294),
reading the fresh generator's integer draws from tape `sd`.  Every loop
iteration consumes at least one remaining pixel, so the loop runs at most
`change_pixels` times and the structural bound `change_pixels` is exact. -/
def get_change_spot_sizes (sd : Nat → Fin 10) (change_pixels : Nat) : List Nat :=
  spotSizesGo sd change_pixels 0 change_pixels

/-- The `for next_step in range(spot_sizes[i])` loop of
`get_change_spot_indices` (lines 320-345): at each step a direction is drawn
from the `moves` tape (global `random` module, position `m`), the candidate
`newpix` is computed from the last path pixel, and it is either discarded by
`discardPix` or appended to the path and to the changed-pixel collection.
Returns the pixels this spot appended, in order, together with the new tape
position. -/
def growSpot (ys xs : Nat) (moves : Nat → Dir) :
    Nat → ℤ × ℤ → Nat → List (ℤ × ℤ) × Nat
  | 0, _, m => ([], m)
  | n + 1, last, m =>
    let q := stepPix last (moves m)
    if discardPix ys xs q then growSpot ys xs moves n last (m + 1)
    else
      let r := growSpot ys xs moves n q (m + 1)
      (q :: r.1, r.2)

/-- State of one call to `get_change_spot_indices`: the `change_pixels` list
accumulated so far and the positions reached on the two global tapes
(`np.random.rand` uniforms and `random.sample` directions). -/
structure WalkSt : Type where
  recorded : List (ℤ × ℤ)
  uctr : Nat
  mctr : Nat
deriving DecidableEq

/-- Processing of one spot: its seed pixel is
`(rint(u * (ysize-1)), rint(u' * (xsize-1)))` with `u`, `u'` the next two
global uniforms (lines 311-315; numpy draws the whole `yx` array before the
walks, which is observationally the same as drawing each spot's pair here
because the uniform and direction tapes are independent), after which the
spot is grown. -/
def runSpot (ys xs : Nat) (urand : Nat → ℚ) (moves : Nat → Dir)
    (size : Nat) (st : WalkSt) : WalkSt :=
  let cy := rint (urand st.uctr * ((ys : ℚ) - 1))
  let cx := rint (urand (st.uctr + 1) * ((xs : ℚ) - 1))
  let r := growSpot ys xs moves size (cy, cx) st.mctr
  ⟨st.recorded ++ r.1, st.uctr + 2, r.2⟩

/-- One iteration of the `while remaining_pxls > 0` body (lines 310-346):
grow every spot of the current size list. -/
def runPass (ys xs : Nat) (urand : Nat → ℚ) (moves : Nat → Dir)
    (sizes : List Nat) (st : WalkSt) : WalkSt :=
  sizes.foldl (fun s sz => runSpot ys xs urand moves sz s) st

/-- The convergence loop of `get_change_spot_indices` (lines 309-352): after
each pass the recorded pixels are deduplicated (`set(change_pixels)`), the
shortfall versus `sum(spot_sizes_orig)` is computed, and if positive the loop
repeats with the single spot size `[remaining]`.  The source loop has no
iteration cap, so it is driven by explicit fuel; `none` models a run that has
not terminated. -/
def spotLoop (ys xs : Nat) (urand : Nat → ℚ) (moves : Nat → Dir)
    (origSum : Nat) : Nat → List Nat → WalkSt → Option WalkSt
  | 0, _, _ => none
  | fuel + 1, sizes, st =>
    let st' := runPass ys xs urand moves sizes st
    let remaining := origSum - st'.recorded.toFinset.card
    if 0 < remaining then spotLoop ys xs urand moves origSum fuel [remaining] st'
    else some st'

/-- Semantics of indexing one numpy axis of length `n` with a possibly
negative integer: indices in `[0, n)` are used as is, indices in `[-n, 0)`
wrap to `i + n`, anything else raises `IndexError`. -/
def wrapIdx (n : Nat) (i : ℤ) : Option Nat :=
  if 0 ≤ i then (if i < (n : ℤ) then some i.toNat else none)
  else (if -(n : ℤ) ≤ i then some (i + (n : ℤ)).toNat else none)

/-- Wrapping of one recorded `(row, column)` pair for the fancy assignment
`change_mask[idxs] = True`. -/
def wrapPix (ys xs : Nat) (p : ℤ × ℤ) : Option (Nat × Nat) :=
  match wrapIdx ys p.1, wrapIdx xs p.2 with
  | some r, some c => some (r, c)
  | _, _ => none

/-- Total version of `wrapPix` used to describe its result when every index
is in numpy's admissible range. -/
def wrapPixD (ys xs : Nat) (p : ℤ × ℤ) : Nat × Nat :=
  (wrapPix ys xs p).getD (0, 0)

/-- Wrapping of the whole recorded list; `none` models the `IndexError`
numpy raises when any index is outside `[-n, n)`. -/
def buildMaskGo (ys xs : Nat) : List (ℤ × ℤ) → Option (List (Nat × Nat))
  | [] => some []
  | p :: rest =>
    match wrapPix ys xs p, buildMaskGo ys xs rest with
    | some q, some qs => some (q :: qs)
    | _, _ => none

/-- Construction of the boolean change mask (lines 354-357): a grid that is
True exactly at the (wrapped) recorded coordinates, represented by its set of
True cells. -/
def buildMask (ys xs : Nat) (recorded : List (ℤ × ℤ)) :
    Except String (Finset (Nat × Nat)) :=
  match buildMaskGo ys xs recorded with
  | some cells => .ok cells.toFinset
  | none => .error "IndexError"

/-- Embedding of `GeoMockImage.get_change_spot_indices` (lines 296-359) with
the global tape positions threaded through, as they persist across calls
within one process.  Returns the mask's True-cell set and the new tape
positions. -/
def getChangeSpotIndicesT (ys xs : Nat) (urand : Nat → ℚ) (moves : Nat → Dir)
    (fuel : Nat) (sizes : List Nat) (u0 m0 : Nat) :
    Option (Except String (Finset (Nat × Nat) × Nat × Nat)) :=
  if 0 < sizes.sum then
    match spotLoop ys xs urand moves sizes.sum fuel sizes ⟨[], u0, m0⟩ with
    | none => none
    | some st => some ((buildMask ys xs st.recorded).map (fun M => (M, st.uctr, st.mctr)))
  else some ((buildMask ys xs []).map (fun M => (M, u0, m0)))

/-- `get_change_spot_indices` run with fresh tapes, keeping only the mask. -/
def get_change_spot_indices (ys xs : Nat) (urand : Nat → ℚ) (moves : Nat → Dir)
    (fuel : Nat) (sizes : List Nat) : Option (Except String (Finset (Nat × Nat))) :=
  (getChangeSpotIndicesT ys xs urand moves fuel sizes 0 0).map (Except.map Prod.fst)

/-- Mask extracted from a `get_change_spot_indices` result, when the call
terminated without an exception. -/
def indicesMaskOf (r : Option (Except String (Finset (Nat × Nat)))) :
    Option (Finset (Nat × Nat)) :=
  match r with
  | some (.ok M) => some M
  | _ => none

/-- Exception message extracted from a `get_change_spot_indices` result. -/
def indicesErrOf (r : Option (Except String (Finset (Nat × Nat)))) : Option String :=
  match r with
  | some (.error e) => some e
  | _ => none

/-- True-cell count of a `get_change_spot_indices` result (0 when the call
did not return a mask). -/
def indicesMaskCard (r : Option (Except String (Finset (Nat × Nat)))) : Nat :=
  match r with
  | some (.ok M) => M.card
  | _ => 0

/-- Whether the mask returned by `get_change_spot_indices` is True at the
cell `c`. -/
def maskMem (r : Option (Except String (Finset (Nat × Nat)))) (c : Nat × Nat) : Bool :=
  match r with
  | some (.ok M) => decide (c ∈ M)
  | _ => false

/-- Per-class radiometric statistics: one mean and one standard deviation
per band, in band order. -/
structure ClassStats : Type where
  avg : List ℚ
  std : List ℚ
deriving DecidableEq

/-- The `LC_CLASSES_OPTICAL` table (lines 23-32), in insertion order; the
1-based position in this list is the class index. -/
def LC_CLASSES_OPTICAL : List ClassStats :=
  [⟨[170, 300, 450, 150], [10, 10, 10, 10]⟩,
   ⟨[600, 600, 600, 900], [100, 100, 100, 100]⟩,
   ⟨[800, 800, 800, 1000], [150, 150, 150, 150]⟩,
   ⟨[250, 450, 450, 1300], [30, 30, 30, 30]⟩,
   ⟨[300, 500, 500, 1100], [100, 100, 100, 100]⟩]

/-- The `LC_CLASSES_SAR` table (lines 35-44), in insertion order. -/
def LC_CLASSES_SAR : List ClassStats :=
  [⟨[30, 50], [10, 10]⟩,
   ⟨[60, 140], [30, 50]⟩,
   ⟨[140, 300], [50, 150]⟩,
   ⟨[90, 180], [30, 40]⟩,
   ⟨[70, 140], [30, 80]⟩]

/-- Stat lookup of `lc_class["avg"][band_idx]` inside the
`try ... except IndexError` of lines 222-233: an in-range index is used
directly, an out-of-range one raises and the handler reads entry `[-1]`
(the last band's value). -/
def statAt (l : List ℚ) (b : Nat) : ℚ :=
  if b < l.length then l.getD b 0 else l.getD (l.length - 1) 0

/-- Model of the external call `np.random.default_rng(seed=ns).normal(loc,
scale, shape)` at flat sample index `idx`: a fresh generator seeded with `ns`
replays the seed-determined standard-normal stream `Z ns` from its start, and
numpy's `normal` returns `loc + scale * z`. -/
def npNormalAt (Z : Nat → Nat → ℚ) (ns : Nat) (loc scale : ℚ) (idx : Nat) : ℚ :=
  loc + scale * Z ns idx

/-- Row-major flat index of pixel `(y, x)` in a grid of width `xsize`. -/
def flatIdx (xsize y x : Nat) : Nat := y * xsize + x

/-- The `mask_ar` array drawn for one class and one band (lines 222-233):
`normal(avg[band], std[band] * noise_intensity, image.shape)` with the
out-of-range band falling back to the last table entry. -/
def classSample (Z : Nat → Nat → ℚ) (ns xsize : Nat) (cls : ClassStats)
    (b : Nat) (ni : ℚ) : Grid ℚ :=
  fun y x => npNormalAt Z ns (statAt cls.avg b) (statAt cls.std b * ni) (flatIdx xsize y x)

/-- Masked assignment `data_ar[image == class_idx] = mask_ar[image == class_idx]`
(line 234); the float samples are cast into the integer array by truncation. -/
def assignClass (img : Grid Nat) (cidx : Nat) (sample : Grid ℚ) (acc : Grid ℤ) :
    Grid ℤ :=
  fun y x => if img y x = cidx then ratTrunc (sample y x) else acc y x

/-- One synthesized band before smoothing: `data_ar` starts as zeros and the
class loop (lines 220-234) assigns each class's samples at its own pixels,
class indices enumerating the table from 1. -/
def synthBandRaw (Z : Nat → Nat → ℚ) (ns : Nat) (table : List ClassStats)
    (img : Grid Nat) (xsize b : Nat) (ni : ℚ) : Grid ℤ :=
  (table.enum.foldl
    (fun acc p => assignClass img (p.1 + 1) (classSample Z ns xsize p.2 b ni) acc)
    (fun _ _ => 0))

/-- Masked in-place constant assignment `image[cond(image)] = v`. -/
def assignIf (c : Nat → Bool) (v : Nat) (g : Grid Nat) : Grid Nat :=
  fun y x => if c (g y x) then v else g y x

/-- The label raster (lines 192-205): the grayscale grid drawn by
`skimage.draw.random_shapes` for seed `seed` (supplied by the `shapes`
oracle) followed by the five sequential masked assignments that bin the
values into classes 1..5. -/
def labelImage (shapes : Nat → Nat → Nat → Nat) (seed : Nat) : Grid Nat :=
  let g0 : Grid Nat := fun y x => shapes seed y x
  let g1 := assignIf (fun v => decide (v < 55)) 1 g0
  let g2 := assignIf (fun v => decide (55 ≤ v) && decide (v < 105)) 2 g1
  let g3 := assignIf (fun v => decide (105 ≤ v) && decide (v < 155)) 3 g2
  let g4 := assignIf (fun v => decide (155 ≤ v) && decide (v < 205)) 4 g3
  assignIf (fun v => decide (205 ≤ v) && decide (v ≤ 255)) 5 g4

/-- Zero padding used by `scipy.signal.medfilt` at the array boundary. -/
def padAt (ys xs : Nat) (g : Grid ℤ) (i j : ℤ) : ℤ :=
  if 0 ≤ i ∧ i < (ys : ℤ) ∧ 0 ≤ j ∧ j < (xs : ℤ) then g i.toNat j.toNat else 0

/-- Semantics of `scipy.signal.medfilt(data_ar)` with its default 3×3
kernel: at each pixel, the median (5th smallest of 9) of the zero-padded
3×3 neighbourhood. -/
def medfilt3 (ys xs : Nat) (g : Grid ℤ) : Grid ℤ :=
  fun y x =>
    let w := (([-1, 0, 1] : List ℤ).flatMap fun dy =>
      ([-1, 0, 1] : List ℤ).map fun dx => padAt ys xs g ((y : ℤ) + dy) ((x : ℤ) + dx))
    (w.insertionSort (· ≤ ·)).getD 4 0

/-- Semantics of `np.clip(·, 1, None)` on one integer value. -/
def npClip1 (v : ℤ) : ℤ := max 1 v

/-- Semantics of `.astype(self.data_type)` applied to an array that already
has dtype `self.data_type` (which is the case on line 236: `data_ar` was
created with that dtype and `medfilt` preserves it): the identity
conversion. -/
def astypeSame (v : ℤ) : ℤ := v

/-- The smoothing stage (lines 236-237):
`data_ar = (signal.medfilt(data_ar)).astype(self.data_type)` followed by
`data_ar = np.clip(data_ar, 1, None)`. -/
def smoothBand (ys xs : Nat) (g : Grid ℤ) : Grid ℤ :=
  fun y x => npClip1 (astypeSame (medfilt3 ys xs g y x))

/-- The `image_type` dispatch of lines 213-218: exact string comparison
selects the class table, anything else raises
`Exception("Only optical and SAR images are supported")`. -/
def classTable (image_type : String) : Except String (List ClassStats) :=
  if image_type = "optical" then .ok LC_CLASSES_OPTICAL
  else if image_type = "SAR" then .ok LC_CLASSES_SAR
  else .error "Only optical and SAR images are supported"

/-- Update of one band under the change mask (line 370):
`bands[i][spot_indices] = bands[i][spot_indices] * change_factor`; the float
product is cast back into the integer array by truncation. -/
def changedBand (mask : Finset (Nat × Nat)) (factor : ℚ) (g : Grid ℤ) : Grid ℤ :=
  fun y x => if (y, x) ∈ mask then ratTrunc ((g y x : ℚ) * factor) else g y x

/-- The `for i in range(self.num_bands)` loop of `apply_change`
(lines 369-370), with `n` iterations left and `i` the current index:
indexing `bands[i]` past the end of the list raises `IndexError`. -/
def applyChangeGo (mask : Finset (Nat × Nat)) (factor : ℚ) :
    Nat → Nat → List (Grid ℤ) → Except String (List (Grid ℤ))
  | 0, _, bs => .ok bs
  | n + 1, i, bs =>
    if h : i < bs.length then
      applyChangeGo mask factor n (i + 1) (bs.set i (changedBand mask factor (bs.get ⟨i, h⟩)))
    else .error "IndexError"

/-- Embedding of `GeoMockImage.apply_change` (lines 361-372) with its
default `change_factor`. -/
def apply_change (num_bands : Nat) (mask : Finset (Nat × Nat)) (factor : ℚ)
    (bands : List (Grid ℤ)) : Except String (List (Grid ℤ)) :=
  applyChangeGo mask factor num_bands 0 bands

/-- Positions reached on the three unseeded tapes: `u` for the global
`np.random.rand` uniforms, `m` for the global `random.sample` directions,
`s` for the entropy consumed by fresh unseeded `np.random.default_rng()`
generators. -/
structure Ctrs : Type where
  u : Nat
  m : Nat
  s : Nat
deriving DecidableEq

/-- The external random sources of one program run (see the module
docstring). -/
structure Env : Type where
  shapes : Nat → Nat → Nat → Nat
  Z : Nat → Nat → ℚ
  urand : Nat → ℚ
  moves : Nat → Dir
  sdraws : Nat → Fin 10

/-- Embedding of `GeoMockImage.add_change_pixels` (lines 251-273): spot
sizes from a fresh unseeded generator, then spot placement, then
`apply_change` with the default factor 1.3.  The `seed` parameter the Python
method receives is never used by these callees. -/
def add_change_pixels (env : Env) (ys xs num_bands : Nat) (bands : List (Grid ℤ))
    (change_pixels fuel : Nat) (cs : Ctrs) :
    Option (Except String (List (Grid ℤ) × Ctrs)) :=
  let sizes := get_change_spot_sizes (fun k => env.sdraws (cs.s + k)) change_pixels
  let s1 := cs.s + sizes.length
  match getChangeSpotIndicesT ys xs env.urand env.moves fuel sizes cs.u cs.m with
  | none => none
  | some (.error e) => some (.error e)
  | some (.ok (mask, u2, m2)) =>
    match apply_change num_bands mask ((13 : ℚ)/10) bands with
    | .error e => some (.error e)
    | .ok bands2 => some (.ok (bands2, ⟨u2, m2, s1⟩))

/-- The `while band_idx < self.num_bands` loop of `add_img_pattern`
(lines 208-247), with `n` iterations left and `b` the current `band_idx`:
each iteration checks the `image_type` dispatch, synthesizes and smooths one
band, appends it, and — inside the loop — calls `add_change_pixels` whenever
`change_pixels > 0`. -/
def bandLoop (env : Env) (ys xs num_bands : Nat) (itype : String)
    (image : Grid Nat) (ns : Nat) (ni : ℚ) (cp fuel : Nat) :
    Nat → Nat → List (Grid ℤ) → Ctrs → Option (Except String (List (Grid ℤ)))
  | 0, _, bands, _ => some (.ok bands)
  | n + 1, b, bands, cs =>
    match classTable itype with
    | .error e => some (.error e)
    | .ok table =>
      let sm := smoothBand ys xs (synthBandRaw env.Z ns table image xs b ni)
      let bands1 := bands ++ [sm]
      if 0 < cp then
        match add_change_pixels env ys xs num_bands bands1 cp fuel cs with
        | none => none
        | some (.error e) => some (.error e)
        | some (.ok (bands2, cs2)) =>
          bandLoop env ys xs num_bands itype image ns ni cp fuel n (b + 1) bands2 cs2
      else bandLoop env ys xs num_bands itype image ns ni cp fuel n (b + 1) bands1 cs

/-- Embedding of `GeoMockImage.add_img_pattern` (lines 171-249) for a seeded
run: label raster from `seed`, then the band loop. -/
def add_img_pattern (env : Env) (ys xs num_bands : Nat) (itype : String)
    (seed ns : Nat) (ni : ℚ) (cp fuel : Nat) :
    Option (Except String (List (Grid ℤ))) :=
  bandLoop env ys xs num_bands itype (labelImage env.shapes seed) ns ni cp fuel
    num_bands 0 [] ⟨0, 0, 0⟩

/-- The band list `add_img_pattern` produces when `change_pixels = 0`: one
synthesized and smoothed band per index, a function of the label raster, the
noise stream and the noise intensity only. -/
def noChangeBands (Z : Nat → Nat → ℚ) (table : List ClassStats)
    (labels : Grid Nat) (ys xs num_bands ns : Nat) (ni : ℚ) : List (Grid ℤ) :=
  (List.range num_bands).map fun b => smoothBand ys xs (synthBandRaw Z ns table labels xs b ni)

/-- Whether a pipeline run terminated without an exception. -/
def isOkSome (r : Option (Except String (List (Grid ℤ)))) : Bool :=
  match r with
  | some (.ok _) => true
  | _ => false

/-- Exception message of a pipeline run, when there is one. -/
def resultErrOf (r : Option (Except String (List (Grid ℤ)))) : Option String :=
  match r with
  | some (.error e) => some e
  | _ => none

/-- Pixel `(y, x)` of band `i` of a successful pipeline run (0 otherwise). -/
def bandPix (r : Option (Except String (List (Grid ℤ)))) (i y x : Nat) : ℤ :=
  match r with
  | some (.ok bs) => (bs.getD i (fun _ _ => 0)) y x
  | _ => 0

/-- Equality of two grids on the `(ys, xs)` rectangle. -/
def gridEqOn (ys xs : Nat) (g h : Grid ℤ) : Prop :=
  ∀ y < ys, ∀ x < xs, g y x = h y x

instance (ys xs : Nat) (g h : Grid ℤ) : Decidable (gridEqOn ys xs g h) := by
  unfold gridEqOn
  infer_instance

/-- Lower-casing of an ASCII character. -/
def asciiLower (c : Char) : Char :=
  if 65 ≤ c.toNat ∧ c.toNat ≤ 90 then Char.ofNat (c.toNat + 32) else c

/-- Lower-casing of an ASCII string; two strings are case variants of each
other exactly when their lower-casings agree. -/
def lowerAscii (s : String) : String := String.mk (s.data.map asciiLower)

theorem spotSizesGo_spec (sd : Nat → Fin 10) :
    ∀ fuel k left, 1 ≤ left → left ≤ fuel →
      (spotSizesGo sd fuel k left).sum = left ∧
        ∀ s ∈ spotSizesGo sd fuel k left, 1 ≤ s ∧ s ≤ 10 := by
  intro fuel
  induction fuel with
  | zero => intro k left h1 h2; omega
  | succ f ih =>
    intro k left h1 h2
    rw [spotSizesGo]
    have hne : ¬ left = 0 := by omega
    simp only [hne, if_false]
    have hd10 : (sd k).val + 1 ≤ 10 := by
      have := (sd k).isLt
      omega
    by_cases hlt : left < (sd k).val + 1
    · simp only [hlt, if_true]
      constructor
      · simp
      · intro s hs
        simp only [List.mem_singleton] at hs
        omega
    · simp only [hlt, if_false]
      by_cases hz : left - ((sd k).val + 1) = 0
      · have hnil : spotSizesGo sd f (k + 1) (left - ((sd k).val + 1)) = [] := by
          rw [hz]; cases f <;> simp [spotSizesGo]
        rw [hnil]
        constructor
        · simp; omega
        · intro s hs
          simp only [List.mem_cons, List.not_mem_nil, or_false] at hs
          omega
      · have hrec := ih (k + 1) (left - ((sd k).val + 1)) (by omega) (by omega)
        constructor
        · simp only [List.sum_cons, hrec.1]
          omega
        · intro s hs
          simp only [List.mem_cons] at hs
          rcases hs with h | h
          · omega
          · exact hrec.2 s h

/-- Constant draw tape: `rng.integers(1, 11)` always returning 3. -/
def sdTwo : Nat → Fin 10 := fun _ => 2

/-- Constant draw tape: `rng.integers(1, 11)` always returning 1. -/
def sdZero : Nat → Fin 10 := fun _ => 0

/-- Direction tape on which `random.sample` always picks "l". -/
def movesL : Nat → Dir := fun _ => .l

/-- Direction tape on which `random.sample` always picks "u". -/
def movesU : Nat → Dir := fun _ => .u

/-- Uniform tape on which `np.random.rand` always returns 0.75. -/
def uThreeQuarters : Nat → ℚ := fun _ => 3/4

/-- Uniform tape on which `np.random.rand` always returns 0.5. -/
def uHalf : Nat → ℚ := fun _ => 1/2

/-- Uniform tape on which `np.random.rand` always returns 0. -/
def uZero : Nat → ℚ := fun _ => 0

/-- Uniform tape returning 0 first and 0.5 afterwards. -/
def uZeroThenHalf : Nat → ℚ := fun k => if k = 0 then 0 else 1/2

/-- Shape oracle drawing an all-black grayscale grid for every seed (so the
whole label raster is class 1, water). -/
def shapesZero : Nat → Nat → Nat → Nat := fun _ _ _ => 0

/-- Standard-normal stream that is identically 0 for every noise seed. -/
def zZero : Nat → Nat → ℚ := fun _ _ => 0

/-- Standard-normal stream whose every draw equals the noise seed, so that
different noise seeds yield genuinely different sample fields. -/
def zSeedValue : Nat → Nat → ℚ := fun ns _ => (ns : ℚ)

/-- Environment of a first program run (tapes `uHalf`/`movesU`). -/
def envRunA : Env := ⟨shapesZero, zZero, uHalf, movesU, sdZero⟩

/-- Environment of a second, independent program run: same seeded sources as
`envRunA`, different ambient (unseeded) uniform tape. -/
def envRunB : Env := ⟨shapesZero, zZero, uZeroThenHalf, movesU, sdZero⟩

/-- Environment with all-zero uniform tape. -/
def envRunC : Env := ⟨shapesZero, zZero, uZero, movesU, sdZero⟩

/-- Environment whose noise stream is `zSeedValue`. -/
def envZ8 : Env := ⟨shapesZero, zSeedValue, uZero, movesU, sdZero⟩

/-- C5: for every change budget `change_pixels ≥ 1`, `get_change_spot_sizes`
returns a list of positive spot sizes, each at most 10, whose sum is exactly
`change_pixels`; an overshooting draw is truncated to the remaining budget,
ending the partition. -/
theorem C5_spot_size_partition (sd : Nat → Fin 10) (cp : Nat) (h : 1 ≤ cp) :
    (get_change_spot_sizes sd cp).sum = cp ∧
      ∀ s ∈ get_change_spot_sizes sd cp, 1 ≤ s ∧ s ≤ 10 :=
  spotSizesGo_spec sd cp 0 cp h (Nat.le_refl cp)

/-- Witness for C5 at the concrete budget 7 with constant draws of 3. -/
theorem C5_spot_size_partition_witness :
    1 ≤ 7 ∧ ((get_change_spot_sizes sdTwo 7).sum = 7 ∧
      ∀ s ∈ get_change_spot_sizes sdTwo 7, 1 ≤ s ∧ s ≤ 10) :=
  ⟨by decide, C5_spot_size_partition sdTwo 7 (by decide)⟩

/-- C4: a candidate pixel of the random walk is discarded exactly when its
row is ≥ ysize or < 0 or its column is ≥ xsize (the literal condition checks
`row < 0` twice and never checks `column < 0`), and a candidate with a
negative column and an in-bounds row is appended to the path and recorded in
the changed-pixel collection. -/
theorem C4_boundary_check_asymmetry (ys xs : Nat) (p : ℤ × ℤ) :
    (discardPix ys xs p = true ↔ ((ys : ℤ) ≤ p.1 ∨ p.1 < 0 ∨ (xs : ℤ) ≤ p.2)) ∧
      (p.2 < 0 → 0 ≤ p.1 → p.1 < (ys : ℤ) →
        ∀ (moves : Nat → Dir) (n m : Nat) (last : ℤ × ℤ),
          stepPix last (moves m) = p →
            (growSpot ys xs moves (n + 1) last m).1
              = p :: (growSpot ys xs moves n p (m + 1)).1) := by
  constructor
  · simp only [discardPix, Bool.or_eq_true, decide_eq_true_eq]
    omega
  · intro h1 h2 h3 moves n m last hstep
    have hd : discardPix ys xs p = false := by
      simp only [discardPix, Bool.or_eq_false_iff, decide_eq_false_iff_not]
      omega
    simp [growSpot, hstep, hd]

/-- Witness for C4: on a 2×2 grid, the candidate `(1, -1)` reached by an "l"
move from `(1, 0)` has a negative column and is nevertheless recorded. -/
theorem C4_boundary_check_asymmetry_witness :
    ((-1 : ℤ) < 0) ∧ (0 : ℤ) ≤ 1 ∧ (1 : ℤ) < 2 ∧
      (growSpot 2 2 movesL 1 ((1 : ℤ), (0 : ℤ)) 0).1 = [((1 : ℤ), (-1 : ℤ))] := by
  refine ⟨by decide, by decide, by decide, ?_⟩
  have h := (C4_boundary_check_asymmetry 2 2 ((1 : ℤ), (-1 : ℤ))).2
    (by decide) (by decide) (by decide) movesL 0 0 ((1 : ℤ), (0 : ℤ)) (by decide)
  simpa [growSpot] using h

/-- C7: the smoothing stage applies the 3×3 median filter and yields, at
every pixel, the dtype conversion of a value clipped to be at least 1; in
particular every smoothed pixel is ≥ 1. -/
theorem C7_smoothing_clip_and_cast (ys xs : Nat) (g : Grid ℤ) (y x : Nat) :
    smoothBand ys xs g y x = astypeSame (npClip1 (medfilt3 ys xs g y x)) ∧
      1 ≤ smoothBand ys xs g y x :=
  ⟨rfl, le_max_left 1 _⟩

/-- C9: each class-and-band sample array is the shared standard-normal field
of the fresh generator seeded with `noise_seed`, scaled and shifted by that
class's stats (`mean + std * noise_intensity * Z` pointwise), so two
class/band pairs with equal mean and std receive identical noise arrays. -/
theorem C9_shared_noise_field (Z : Nat → Nat → ℚ) (ns xsize : Nat)
    (c1 c2 : ClassStats) (b1 b2 : Nat) (ni : ℚ) (y x : Nat) :
    classSample Z ns xsize c1 b1 ni y x
        = statAt c1.avg b1 + statAt c1.std b1 * ni * Z ns (y * xsize + x) ∧
      (statAt c1.avg b1 = statAt c2.avg b2 → statAt c1.std b1 = statAt c2.std b2 →
        classSample Z ns xsize c1 b1 ni y x = classSample Z ns xsize c2 b2 ni y x) := by
  refine ⟨rfl, fun h1 h2 => ?_⟩
  simp [classSample, npNormalAt, h1, h2]

/-- Witness for C9: in the optical table the bare-ground class has equal
mean and std in bands 0 and 1, so those two bands' noise arrays coincide on
a concrete non-constant stream. -/
theorem C9_shared_noise_field_witness :
    statAt (LC_CLASSES_OPTICAL.getD 1 ⟨[], []⟩).avg 0
        = statAt (LC_CLASSES_OPTICAL.getD 1 ⟨[], []⟩).avg 1 ∧
      statAt (LC_CLASSES_OPTICAL.getD 1 ⟨[], []⟩).std 0
        = statAt (LC_CLASSES_OPTICAL.getD 1 ⟨[], []⟩).std 1 ∧
      classSample (fun ns k => (ns + k : ℚ)) 5 3 (LC_CLASSES_OPTICAL.getD 1 ⟨[], []⟩) 0 1 0 0
        = classSample (fun ns k => (ns + k : ℚ)) 5 3 (LC_CLASSES_OPTICAL.getD 1 ⟨[], []⟩) 1 1 0 0 :=
  ⟨by decide, by decide,
    (C9_shared_noise_field (fun ns k => (ns + k : ℚ)) 5 3
      (LC_CLASSES_OPTICAL.getD 1 ⟨[], []⟩) (LC_CLASSES_OPTICAL.getD 1 ⟨[], []⟩)
      0 1 1 0 0).2 (by decide) (by decide)⟩

/-- C1: refutation trace for change-count exactness.  On a 2×2 grid with
budget 3 (≤ 4 total pixels), the spot sizes are `[3]` and a run whose walk
starts at `(1, 1)` and moves left three times records `(1,0)`, `(1,-1)`,
`(1,-2)`; the convergence loop sees 3 distinct coordinate pairs and stops,
but the negative columns wrap to columns 1 and 0, so the returned mask has
only 2 True cells instead of 3. -/
theorem C1_change_count_not_exact :
    get_change_spot_sizes sdTwo 3 = [3] ∧ (3 : Nat) ≤ 2 * 2 ∧
      maskMem (get_change_spot_indices 2 2 uThreeQuarters movesL 5 [3]) (1, 0) = true ∧
      maskMem (get_change_spot_indices 2 2 uThreeQuarters movesL 5 [3]) (1, 1) = true ∧
      indicesMaskCard (get_change_spot_indices 2 2 uThreeQuarters movesL 5 [3]) = 2 ∧
      ¬ indicesMaskCard (get_change_spot_indices 2 2 uThreeQuarters movesL 5 [3]) = 3 := by
  with_unfolding_all decide

/-- C2: refutation trace for determinism with `change_pixels > 0`.  Two runs
with identical `(seed, noise_seed, noise_intensity, change_pixels)` and
identical seeded sources, but different ambient tapes for the unseeded
generators used by the change stage, terminate normally yet produce
different change masks and different band arrays (pixel `(1,1)` of band 0 is
170 in one run and 221 in the other). -/
theorem C2_change_stage_not_deterministic :
    envRunA.shapes = envRunB.shapes ∧ envRunA.Z = envRunB.Z ∧
      indicesMaskOf (get_change_spot_indices 3 3 envRunA.urand envRunA.moves 5 [1])
        = some {(2, 1)} ∧
      indicesMaskOf (get_change_spot_indices 3 3 envRunB.urand envRunB.moves 5 [1])
        = some {(1, 1)} ∧
      isOkSome (add_img_pattern envRunA 3 3 1 "optical" 11 5 1 1 5) = true ∧
      isOkSome (add_img_pattern envRunB 3 3 1 "optical" 11 5 1 1 5) = true ∧
      bandPix (add_img_pattern envRunA 3 3 1 "optical" 11 5 1 1 5) 0 1 1 = 170 ∧
      bandPix (add_img_pattern envRunB 3 3 1 "optical" 11 5 1 1 5) 0 1 1 = 221 := by
  refine ⟨rfl, rfl, ?_⟩
  with_unfolding_all decide

/-- C3: the change stage is not composed once after all bands — it runs
inside the per-band loop, and `apply_change` iterates over
`range(num_bands)` on the still-incomplete band list, so a 2-band request
with `change_pixels = 1` raises `IndexError` during the first band's
iteration, while the same request with `change_pixels = 0` bypasses the
change stage and succeeds. -/
theorem C3_change_stage_runs_inside_band_loop :
    resultErrOf (add_img_pattern envRunC 2 2 2 "optical" 0 0 1 1 5) = some "IndexError" ∧
      isOkSome (add_img_pattern envRunC 2 2 2 "optical" 0 0 1 0 5) = true := by
  with_unfolding_all decide

theorem wrapIdx_isSome (n : Nat) (i : ℤ) (h1 : -(n : ℤ) ≤ i) (h2 : i < (n : ℤ)) :
    (wrapIdx n i).isSome := by
  unfold wrapIdx
  by_cases h : 0 ≤ i
  · rw [if_pos h, if_pos h2]; rfl
  · rw [if_neg h, if_pos h1]; rfl

theorem wrapIdx_lt (n : Nat) (i : ℤ) (r : Nat) (h : wrapIdx n i = some r) : r < n := by
  unfold wrapIdx at h
  by_cases h1 : 0 ≤ i
  · rw [if_pos h1] at h
    by_cases h2 : i < (n : ℤ)
    · rw [if_pos h2] at h; injection h with h; omega
    · rw [if_neg h2] at h; exact absurd h (by simp)
  · rw [if_neg h1] at h
    by_cases h2 : -(n : ℤ) ≤ i
    · rw [if_pos h2] at h; injection h with h; omega
    · rw [if_neg h2] at h; exact absurd h (by simp)

theorem wrapPix_eq_some (ys xs : Nat) (p : ℤ × ℤ) (q : Nat × Nat)
    (h : wrapPix ys xs p = some q) :
    wrapIdx ys p.1 = some q.1 ∧ wrapIdx xs p.2 = some q.2 := by
  unfold wrapPix at h
  rcases h1 : wrapIdx ys p.1 with _ | r <;> rcases h2 : wrapIdx xs p.2 with _ | c <;>
    rw [h1, h2] at h <;> simp_all
  subst h
  exact ⟨rfl, rfl⟩

theorem buildMaskGo_total (ys xs : Nat) :
    ∀ l : List (ℤ × ℤ), (∀ p ∈ l, (wrapPix ys xs p).isSome) →
      buildMaskGo ys xs l = some (l.map (wrapPixD ys xs)) := by
  intro l
  induction l with
  | nil => intro _; rfl
  | cons p rest ih =>
    intro h
    obtain ⟨q, hq⟩ := Option.isSome_iff_exists.mp (h p (List.mem_cons_self p rest))
    rw [buildMaskGo, hq, ih (fun r hr => h r (List.mem_cons_of_mem p hr))]
    simp [wrapPixD, hq]

/-- C10 (amended): when every recorded row is in `[0, ysize)` and every
recorded column is in `[-xsize, xsize)`, mask construction succeeds, every
True cell lies inside the grid, a recorded column −1 sets the cell in column
`xsize − 1` of its row, and the True-count is at most — and, as the concrete
aliasing instance shows, sometimes strictly less than — the number of
distinct recorded coordinate pairs.  Columns below `−xsize` do make it fail
(see the counterexample). -/
theorem C10_mask_wrap_amended :
    (∀ (ys xs : Nat) (recorded : List (ℤ × ℤ)),
      (∀ p ∈ recorded, (0 ≤ p.1 ∧ p.1 < (ys : ℤ)) ∧ (-(xs : ℤ) ≤ p.2 ∧ p.2 < (xs : ℤ))) →
      ∃ M, buildMask ys xs recorded = .ok M ∧
        (∀ c ∈ M, c.1 < ys ∧ c.2 < xs) ∧
        M.card ≤ recorded.toFinset.card ∧
        (∀ y : ℤ, (y, -1) ∈ recorded → (y.toNat, xs - 1) ∈ M)) ∧
    (buildMaskGo 2 2 [((1 : ℤ), 0), ((1 : ℤ), -2)]).map (fun l => l.toFinset.card) = some 1 ∧
    ([((1 : ℤ), 0), ((1 : ℤ), -2)]).toFinset.card = 2 := by
  refine ⟨?_, by decide, by decide⟩
  intro ys xs recorded hrec
  have hsome : ∀ p ∈ recorded, (wrapPix ys xs p).isSome := by
    intro p hp
    obtain ⟨⟨ha, hb⟩, hc, hd⟩ := hrec p hp
    have hr : wrapIdx ys p.1 = some p.1.toNat := by
      unfold wrapIdx; rw [if_pos ha, if_pos hb]
    obtain ⟨c, hcv⟩ := Option.isSome_iff_exists.mp (wrapIdx_isSome xs p.2 hc hd)
    unfold wrapPix
    rw [hr, hcv]
    rfl
  refine ⟨(recorded.map (wrapPixD ys xs)).toFinset, ?_, ?_, ?_, ?_⟩
  · unfold buildMask
    rw [buildMaskGo_total ys xs recorded hsome]
  · intro c hc
    rw [List.mem_toFinset, List.mem_map] at hc
    obtain ⟨p, hp, hpc⟩ := hc
    obtain ⟨q, hq⟩ := Option.isSome_iff_exists.mp (hsome p hp)
    have hqc : q = c := by rw [← hpc]; simp [wrapPixD, hq]
    subst hqc
    obtain ⟨hy, hx⟩ := wrapPix_eq_some ys xs p q hq
    exact ⟨wrapIdx_lt ys p.1 q.1 hy, wrapIdx_lt xs p.2 q.2 hx⟩
  · have himg : (recorded.map (wrapPixD ys xs)).toFinset
        = recorded.toFinset.image (wrapPixD ys xs) := by
      ext q
      simp [List.mem_toFinset, List.mem_map, Finset.mem_image]
    rw [himg]
    exact Finset.card_image_le
  · intro y hy
    rw [List.mem_toFinset, List.mem_map]
    refine ⟨(y, -1), hy, ?_⟩
    obtain ⟨⟨ha, hb⟩, hc, _⟩ := hrec (y, -1) hy
    have hr : wrapIdx ys y = some y.toNat := by
      unfold wrapIdx; rw [if_pos ha, if_pos hb]
    have hcv : wrapIdx xs (-1) = some (xs - 1) := by
      unfold wrapIdx
      rw [if_neg (by omega), if_pos (by omega)]
      congr 1
      omega
    unfold wrapPixD wrapPix
    rw [hr, hcv]
    rfl

/-- Witness for C10 (amended) at the one-element recorded list `[(0, −1)]`
over a 2×3 grid. -/
theorem C10_mask_wrap_amended_witness :
    (∀ p ∈ [((0 : ℤ), (-1 : ℤ))],
      (0 ≤ p.1 ∧ p.1 < (2 : ℤ)) ∧ (-(3 : ℤ) ≤ p.2 ∧ p.2 < (3 : ℤ))) ∧
    (∃ M, buildMask 2 3 [((0 : ℤ), (-1 : ℤ))] = .ok M ∧
      (∀ c ∈ M, c.1 < 2 ∧ c.2 < 3) ∧
      M.card ≤ [((0 : ℤ), (-1 : ℤ))].toFinset.card ∧
      (∀ y : ℤ, (y, -1) ∈ [((0 : ℤ), (-1 : ℤ))] → (y.toNat, 3 - 1) ∈ M)) :=
  ⟨by decide, C10_mask_wrap_amended.1 2 3 [((0 : ℤ), (-1 : ℤ))] (by decide)⟩

/-- C10, counterexample to "never fails for out-of-range columns": on a 1×1
grid a spot of size 2 started at `(0, 0)` that moves left twice records the
columns −1 and −2; −2 is below `−xsize = −1`, so mask construction raises
`IndexError` instead of returning a mask. -/
theorem C10_mask_construction_can_fail :
    indicesErrOf (get_change_spot_indices 1 1 uZero movesL 5 [2]) = some "IndexError" ∧
      indicesMaskOf (get_change_spot_indices 1 1 uZero movesL 5 [2]) = none := by
  with_unfolding_all decide

set_option maxHeartbeats 1000000 in
/-- C6, counterexample: `"Optical"` is a case variant of `"optical"` (their
ASCII lower-casings agree), yet the band synthesis rejects it with the
configuration error — the dispatch compares strings case-sensitively. -/
theorem C6_case_variant_rejected :
    lowerAscii "Optical" = lowerAscii "optical" ∧ "Optical" ≠ "optical" ∧
      resultErrOf (add_img_pattern envRunC 1 1 1 "Optical" 0 0 1 0 5)
        = some "Only optical and SAR images are supported" := by
  refine ⟨rfl, by decide, ?_⟩
  with_unfolding_all decide

/-- C6 (amended): the `image_type` comparison is case-sensitive — every
string other than exactly "optical" or "SAR" makes band synthesis fail with
the configuration error before any sampling (whenever at least one band is
requested, and regardless of `change_pixels`), and exactly those two strings
select their class tables. -/
theorem C6_image_type_case_handling (env : Env) (ys xs nb : Nat) (itype : String)
    (seed ns : Nat) (ni : ℚ) (cp fuel : Nat)
    (h1 : itype ≠ "optical") (h2 : itype ≠ "SAR") (h3 : 1 ≤ nb) :
    classTable itype = .error "Only optical and SAR images are supported" ∧
      add_img_pattern env ys xs nb itype seed ns ni cp fuel
        = some (.error "Only optical and SAR images are supported") ∧
      classTable "optical" = .ok LC_CLASSES_OPTICAL ∧
      classTable "SAR" = .ok LC_CLASSES_SAR := by
  have ht : classTable itype = .error "Only optical and SAR images are supported" := by
    simp [classTable, h1, h2]
  refine ⟨ht, ?_, by simp [classTable], by simp [classTable]⟩
  obtain ⟨k, rfl⟩ : ∃ k, nb = k + 1 := ⟨nb - 1, by omega⟩
  simp [add_img_pattern, bandLoop, ht]

/-- Witness for C6 (amended) at the concrete unsupported type `"XYZ"`. -/
theorem C6_image_type_case_handling_witness :
    ("XYZ" : String) ≠ "optical" ∧ ("XYZ" : String) ≠ "SAR" ∧ 1 ≤ 1 ∧
      (classTable "XYZ" = .error "Only optical and SAR images are supported" ∧
        add_img_pattern envRunC 1 1 1 "XYZ" 0 0 1 0 5
          = some (.error "Only optical and SAR images are supported") ∧
        classTable "optical" = .ok LC_CLASSES_OPTICAL ∧
        classTable "SAR" = .ok LC_CLASSES_SAR) :=
  ⟨by decide, by decide, by decide,
    C6_image_type_case_handling envRunC 1 1 1 "XYZ" 0 0 1 0 5
      (by decide) (by decide) (by decide)⟩

theorem bandLoop_noChange (env : Env) (ys xs nb : Nat) (itype : String)
    (image : Grid Nat) (ns : Nat) (ni : ℚ) (fuel : Nat) (table : List ClassStats)
    (ht : classTable itype = .ok table) :
    ∀ n b acc cs, bandLoop env ys xs nb itype image ns ni 0 fuel n b acc cs
      = some (.ok (acc ++ (List.range n).map fun i =>
          smoothBand ys xs (synthBandRaw env.Z ns table image xs (b + i) ni))) := by
  intro n
  induction n with
  | zero =>
    intro b acc cs
    simp [bandLoop]
  | succ k ih =>
    intro b acc cs
    rw [bandLoop, ht]
    simp only [Nat.lt_irrefl, if_false]
    rw [ih (b + 1) _ cs]
    have harg : (fun i => smoothBand ys xs (synthBandRaw env.Z ns table image xs (b + 1 + i) ni))
        = fun i => smoothBand ys xs (synthBandRaw env.Z ns table image xs (b + (i + 1)) ni) := by
      funext i
      have hn : b + 1 + i = b + (i + 1) := by omega
      rw [hn]
    rw [harg, List.range_succ_eq_map]
    simp [List.map_map, Function.comp_def]

/-- C8 (amended): with `change_pixels = 0`, the produced band list is a
function of the seed-determined label raster and the noise-seed-determined
standard-normal stream only — identical seed therefore means identical label
raster for any noise seed, and the radiometric samples depend only on
`noise_seed` and `noise_intensity`; but equal final bands for different
noise seeds are possible (see the counterexample), because median filtering
and integer casting can erase sample differences. -/
theorem C8_noise_decoupling_amended (env : Env) (ys xs nb seed ns : Nat)
    (ni : ℚ) (fuel : Nat) :
    add_img_pattern env ys xs nb "optical" seed ns ni 0 fuel
      = some (.ok (noChangeBands env.Z LC_CLASSES_OPTICAL (labelImage env.shapes seed)
          ys xs nb ns ni)) ∧
    add_img_pattern env ys xs nb "SAR" seed ns ni 0 fuel
      = some (.ok (noChangeBands env.Z LC_CLASSES_SAR (labelImage env.shapes seed)
          ys xs nb ns ni)) := by
  constructor
  · rw [add_img_pattern,
      bandLoop_noChange env ys xs nb "optical" (labelImage env.shapes seed) ns ni fuel
        LC_CLASSES_OPTICAL (by simp [classTable])]
    simp [noChangeBands]
  · rw [add_img_pattern,
      bandLoop_noChange env ys xs nb "SAR" (labelImage env.shapes seed) ns ni fuel
        LC_CLASSES_SAR (by simp [classTable])]
    simp [noChangeBands]

set_option maxHeartbeats 1000000 in
/-- C8, counterexample: two generations with the same seed and different
noise seeds, whose noise streams (and pre-filter sample values: 170 versus
180 at pixel `(0,0)`) genuinely differ, nevertheless produce identical band
arrays on a 2×2 grid — the 3×3 zero-padded median filter and the final clip
send every pixel of both runs to 1. -/
theorem C8_bands_can_coincide :
    (0 : Nat) ≠ 1 ∧ envZ8.Z 0 0 ≠ envZ8.Z 1 0 ∧
      synthBandRaw envZ8.Z 0 LC_CLASSES_OPTICAL (labelImage envZ8.shapes 7) 2 0 1 0 0 = 170 ∧
      synthBandRaw envZ8.Z 1 LC_CLASSES_OPTICAL (labelImage envZ8.shapes 7) 2 0 1 0 0 = 180 ∧
      isOkSome (add_img_pattern envZ8 2 2 1 "optical" 7 0 1 0 5) = true ∧
      isOkSome (add_img_pattern envZ8 2 2 1 "optical" 7 1 1 0 5) = true ∧
      gridEqOn 2 2 (fun y x => bandPix (add_img_pattern envZ8 2 2 1 "optical" 7 0 1 0 5) 0 y x)
        (fun y x => bandPix (add_img_pattern envZ8 2 2 1 "optical" 7 1 1 0 5) 0 y x) := by
  with_unfolding_all decide
